import Mathlib

/-!
Verification of the deployment orchestration and backend user controller of
the Docker-Kubernetes repository.

The shell scripts (`scripts/deploy-kubernetes.sh`, the docker build script
and the verification script) are embedded as pure functions over an explicit
environment describing the outcome of each external command (`kubectl`
present or not, exit status of each `kubectl apply`, readiness of MongoDB
within the 120s `kubectl wait` timeout, exit status of each `docker build`,
presence of each tool the verification script probes).  The scripts run with
`set -e`, so the embedding aborts with the failing command's exit status at
the first failing command that is not protected by `|| true` / `|| echo`.

The user controller (`backend/app/controllers/user.controller.js`) is
embedded over a list-of-documents database, with `bcrypt.hash` abstracted as
an arbitrary function argument (its output is never inspected by the code
under verification).
-/

namespace Deploy

/-- The manifest files the deploy script applies, in the script's own naming:
`namespace.yaml`, `secret.yaml`, `configmap.yaml`, `mongodb-deployment.yaml`,
`backend-deployment.yaml`, `frontend-deployment.yaml`, `ingress.yaml`. -/
inductive Resource where
  | ns | secret | config | mongodb | backend | frontend | ingress
deriving DecidableEq, Repr

/-- Observable calls the script makes against the cluster: one `kubectl apply`
per manifest, and the single `kubectl wait` on the MongoDB pods. -/
inductive Event where
  | apply (r : Resource)
  | waitMongo
deriving DecidableEq, Repr

/-- Terminal status of a run: the script either reaches its final
"Deployment complete!" echo or exits early under `set -e`. -/
inductive RunState where
  | complete | aborted
deriving DecidableEq, Repr

/-- Tolerable failures the script downgrades: the swallowed `kubectl wait`
timeout (`|| true`) and the swallowed ingress apply failure (`|| echo ...`). -/
inductive Warning where
  | readiness | routing
deriving DecidableEq, Repr

/-- The environment a run executes against: whether `kubectl` is on PATH,
the exit status of `kubectl apply -f` for each manifest (0 = accepted), and
whether the MongoDB pods become ready within the 120s wait timeout. -/
structure Env where
  kubectlPresent : Bool
  applyExit : Resource → Nat
  mongoReadyWithin120 : Bool

/-- Result of one run of the deploy script. -/
structure DeployResult where
  trace : List Event
  state : RunState
  warnings : List Warning
  exitCode : Nat
deriving DecidableEq, Repr

/-- The script `scripts/deploy-kubernetes.sh` under `set -e`:
check `command -v kubectl` (exit 1 if absent), then apply
namespace, secret, configmap, mongodb-deployment in order — each failure is
fatal with the apply's exit status — then `kubectl wait ... --timeout=120s
|| true` (timeout swallowed, run continues), then apply backend-deployment
and frontend-deployment (fatal on failure), then
`kubectl apply -f ingress.yaml || echo ...` (failure swallowed), then the
final status echoes, exiting 0. -/
def deploy (env : Env) : DeployResult :=
  if !env.kubectlPresent then
    -- `exit 1` before any manifest is touched
    ⟨[], .aborted, [], 1⟩
  else
    let t1 := [Event.apply .ns]
    if env.applyExit .ns ≠ 0 then ⟨t1, .aborted, [], env.applyExit .ns⟩ else
    let t2 := t1 ++ [Event.apply .secret]
    if env.applyExit .secret ≠ 0 then ⟨t2, .aborted, [], env.applyExit .secret⟩ else
    let t3 := t2 ++ [Event.apply .config]
    if env.applyExit .config ≠ 0 then ⟨t3, .aborted, [], env.applyExit .config⟩ else
    let t4 := t3 ++ [Event.apply .mongodb]
    if env.applyExit .mongodb ≠ 0 then ⟨t4, .aborted, [], env.applyExit .mongodb⟩ else
    let t5 := t4 ++ [Event.waitMongo]
    let w5 := if env.mongoReadyWithin120 then ([] : List Warning) else [.readiness]
    let t6 := t5 ++ [Event.apply .backend]
    if env.applyExit .backend ≠ 0 then ⟨t6, .aborted, w5, env.applyExit .backend⟩ else
    let t7 := t6 ++ [Event.apply .frontend]
    if env.applyExit .frontend ≠ 0 then ⟨t7, .aborted, w5, env.applyExit .frontend⟩ else
    let t8 := t7 ++ [Event.apply .ingress]
    let w8 := w5 ++ (if env.applyExit .ingress ≠ 0 then [Warning.routing] else [])
    ⟨t8, .complete, w8, 0⟩

/-- The manifests submitted (attempted `kubectl apply` calls) during a run,
in call order. -/
def submitted (env : Env) : List Resource :=
  (deploy env).trace.filterMap fun e =>
    match e with
    | .apply r => some r
    | .waitMongo => none

/-- An environment in which every external command succeeds. -/
def allOkEnv : Env :=
  { kubectlPresent := true, applyExit := fun _ => 0, mongoReadyWithin120 := true }

/-- An environment whose cluster rejects only the configmap apply. -/
def configRejectEnv : Env :=
  { kubectlPresent := true,
    applyExit := fun r => if r = .config then 1 else 0,
    mongoReadyWithin120 := true }

/-- An environment in which MongoDB never becomes ready within the timeout. -/
def mongoNeverReadyEnv : Env :=
  { kubectlPresent := true, applyExit := fun _ => 0, mongoReadyWithin120 := false }

/-- An environment whose cluster rejects only the ingress apply (e.g. no
ingress controller installed). -/
def ingressRejectEnv : Env :=
  { kubectlPresent := true,
    applyExit := fun r => if r = .ingress then 1 else 0,
    mongoReadyWithin120 := true }

/-- An environment with no `kubectl` on PATH. -/
def noKubectlEnv : Env :=
  { kubectlPresent := false, applyExit := fun _ => 0, mongoReadyWithin120 := true }

/-- The full event sequence of a run in which every step is attempted:
the script's fixed apply order with the readiness wait after MongoDB. -/
def fullTrace : List Event :=
  [.apply .ns, .apply .secret, .apply .config, .apply .mongodb,
   .waitMongo, .apply .backend, .apply .frontend, .apply .ingress]

/-- Idempotent insertion: a cluster that treats re-apply of an existing
resource as a no-op update. -/
def insertRes (c : List Resource) (r : Resource) : List Resource :=
  if r ∈ c then c else c ++ [r]

/-- One cluster-side transition per observable event: a successful apply
creates (or no-op updates) the resource; a failed apply and the wait leave
the cluster unchanged. -/
def clusterStep (env : Env) (c : List Resource) (e : Event) : List Resource :=
  match e with
  | .apply r => if env.applyExit r = 0 then insertRes c r else c
  | .waitMongo => c

/-- The cluster state after one run of the deploy script against `env`,
starting from cluster contents `c`. -/
def runCluster (env : Env) (c : List Resource) : List Resource :=
  (deploy env).trace.foldl (clusterStep env) c

/-- Two back-to-back runs of the deploy script against the same environment.
The script holds no state across runs, so the second run is the same pure
function of `env`; only the cluster state is threaded through. -/
def deployTwice (env : Env) (c : List Resource) :
    (DeployResult × DeployResult) × List Resource :=
  ((deploy env, deploy env), runCluster env (runCluster env c))

end Deploy

namespace Build

/-- The two service units the docker build script builds, in script order. -/
inductive BuildUnit where
  | backend | frontend
deriving DecidableEq, Repr

/-- The environment of one run of the build script: the exit status of
`docker build` for each unit (0 = success). -/
structure BuildEnv where
  buildExit : BuildUnit → Nat

/-- Result of one run of the docker build script:
`announced` records the "Building ... image..." echo lines in order (the
last announced unit is the one a failure is attributed to), `built` the
builds that completed, `exitCode` the script's exit status, and
`deployInvoked` whether the script invoked the deploy script (it never
does). -/
structure BuildResult where
  announced : List BuildUnit
  built : List BuildUnit
  exitCode : Nat
  deployInvoked : Bool
deriving DecidableEq, Repr

/-- The docker build script under `set -e`: echo then `docker build` for the
backend, echo then `docker build` for the frontend; the first failing build
terminates the script with that build's exit status, and the script never
invokes any deployment. -/
def buildImages (env : BuildEnv) : BuildResult :=
  if env.buildExit .backend ≠ 0 then
    ⟨[.backend], [], env.buildExit .backend, false⟩
  else if env.buildExit .frontend ≠ 0 then
    ⟨[.backend, .frontend], [.backend], env.buildExit .frontend, false⟩
  else
    ⟨[.backend, .frontend], [.backend, .frontend], 0, false⟩

/-- An environment in which the backend image build fails with status 7. -/
def backendFailEnv : BuildEnv :=
  { buildExit := fun u => if u = .backend then 7 else 0 }

/-- An environment in which only the frontend image build fails, with
status 2. -/
def frontendFailEnv : BuildEnv :=
  { buildExit := fun u => if u = .frontend then 2 else 0 }

end Build

namespace Verify

/-- Outcome class of one printed check line: green check, yellow warning, or
red cross. -/
inductive CheckStatus where
  | pass | warn | fail
deriving DecidableEq, Repr

/-- The environment the verification script probes: presence of each tool
and daemon, cluster reachability, and presence of the project artifacts. -/
structure VerifyEnv where
  dockerInstalled : Bool
  composeAvailable : Bool
  daemonRunning : Bool
  containersExist : Bool
  projectImagesExist : Bool
  backendImageExists : Bool
  frontendImageExists : Bool
  volumesExist : Bool
  networksExist : Bool
  kubectlInstalled : Bool
  clusterAccessible : Bool
  namespaceExists : Bool
  minikubeInstalled : Bool
  minikubeRunning : Bool
  kindInstalled : Bool
  kindHasClusters : Bool
  projectDirAccessible : Bool
  composeFileExists : Bool
  backendDockerfileExists : Bool
  frontendDockerfileExists : Bool
  k8sDirExists : Bool
deriving DecidableEq, Repr

/-- Result of one run of the verification script: the pass/warn/fail line
for each check, in print order, and the exit status. -/
structure VerifyResult where
  lines : List (String × CheckStatus)
  exitCode : Nat
deriving DecidableEq, Repr

/-- Helper for a pass-or-fail check line. -/
def passFail (name : String) (b : Bool) : String × CheckStatus :=
  (name, if b then .pass else .fail)

/-- Helper for a pass-or-warn check line. -/
def passWarn (name : String) (b : Bool) : String × CheckStatus :=
  (name, if b then .pass else .warn)

/-- The verification script.  Only two commands terminate it early: the
docker-installed check (`exit 1` when `command -v docker` fails) and the
`cd "$(dirname "$0")/.." || exit` before the project-file checks (which
propagates `cd`'s non-zero status).  Every other failed check — docker
compose missing, docker daemon not running, kubectl missing, cluster
unreachable, missing files — prints its red/yellow line and the script
continues, reaching the final `exit 0`. -/
def verify (e : VerifyEnv) : VerifyResult :=
  if !e.dockerInstalled then
    ⟨[("docker installed", .fail)], 1⟩
  else
    let dockerLines :=
      [("docker installed", CheckStatus.pass),
       passFail "docker compose" e.composeAvailable,
       passFail "docker daemon" e.daemonRunning,
       passWarn "containers" e.containersExist] ++
      (if e.projectImagesExist then
        [passWarn "backend image" e.backendImageExists,
         passWarn "frontend image" e.frontendImageExists]
      else [("project images", CheckStatus.warn)]) ++
      [passWarn "volumes" e.volumesExist,
       passWarn "networks" e.networksExist]
    let k8sLines :=
      [passFail "kubectl installed" e.kubectlInstalled] ++
      (if e.clusterAccessible then
        [("cluster accessible", CheckStatus.pass),
         passWarn "namespace fullstack-app" e.namespaceExists]
      else [("cluster accessible", CheckStatus.fail)]) ++
      (if e.minikubeInstalled then
        [("minikube installed", CheckStatus.pass),
         passWarn "minikube running" e.minikubeRunning]
      else [("minikube installed", CheckStatus.warn)]) ++
      (if e.kindInstalled then
        [("kind installed", CheckStatus.pass),
         passWarn "kind clusters" e.kindHasClusters]
      else [("kind installed", CheckStatus.warn)])
    let summaryLines :=
      [passFail "summary docker ready" (e.dockerInstalled && e.daemonRunning),
       passWarn "summary kubernetes ready" e.clusterAccessible]
    if !e.projectDirAccessible then
      ⟨dockerLines ++ k8sLines ++ summaryLines, 1⟩
    else
      ⟨dockerLines ++ k8sLines ++ summaryLines ++
        [passFail "docker-compose.yml" e.composeFileExists,
         passFail "backend/Dockerfile" e.backendDockerfileExists,
         passFail "frontend/Dockerfile" e.frontendDockerfileExists,
         passFail "kubernetes directory" e.k8sDirExists], 0⟩

/-- An environment in which the docker daemon is not running and kubectl is
not installed, but the docker CLI itself is present. -/
def daemonDownEnv : VerifyEnv :=
  { dockerInstalled := true
    composeAvailable := true
    daemonRunning := false
    containersExist := true
    projectImagesExist := true
    backendImageExists := true
    frontendImageExists := true
    volumesExist := true
    networksExist := true
    kubectlInstalled := false
    clusterAccessible := false
    namespaceExists := false
    minikubeInstalled := false
    minikubeRunning := false
    kindInstalled := false
    kindHasClusters := false
    projectDirAccessible := true
    composeFileExists := true
    backendDockerfileExists := true
    frontendDockerfileExists := true
    k8sDirExists := true }

/-- An environment with the docker CLI absent. -/
def noDockerEnv : VerifyEnv :=
  { daemonDownEnv with dockerInstalled := false }

end Verify

namespace Users

/-- A stored user document, as constructed by `exports.create`:
`firstName`, `lastName`, `email`, bcrypt-hashed `password`, `isAdmin`. -/
structure UserDoc where
  firstName : String
  lastName : String
  email : String
  password : String
  isAdmin : Bool
deriving DecidableEq, Repr

/-- The plain object obtained from a document via `.toObject()`; `password`
is optional because the controllers remove the key with
`delete userObj.password` before responding. -/
structure UserView where
  firstName : String
  lastName : String
  email : String
  password : Option String
  isAdmin : Bool
deriving DecidableEq, Repr

/-- Mongoose `user.toObject()`: all stored fields, password present. -/
def toObject (u : UserDoc) : UserView :=
  ⟨u.firstName, u.lastName, u.email, some u.password, u.isAdmin⟩

/-- The `delete userObj.password` statement. -/
def deletePassword (v : UserView) : UserView :=
  { v with password := none }

/-- `Users.findOne({ email })` over a list-of-documents database: first
document with the given email. -/
def findOne (db : List UserDoc) (email : String) : Option UserDoc :=
  db.find? (fun u => u.email = email)

/-- `exports.getAllUsers`: fetch all users, strip each password, respond
with the list. -/
def getAllUsers (db : List UserDoc) : List UserView :=
  db.map (fun u => deletePassword (toObject u))

/-- `exports.getAUser`: find by email; on a hit strip the password and
respond, otherwise 404 (`none`). -/
def getAUser (db : List UserDoc) (email : String) : Option UserView :=
  (findOne db email).map (fun u => deletePassword (toObject u))

/-- Request body accepted by `exports.updateAUser` (userEdit schema):
first name, last name, plaintext password. -/
structure EditBody where
  firstName : String
  lastName : String
  password : String
deriving DecidableEq, Repr

/-- `Users.updateOne({email}, {...})`: update the first document matching
the email with the new first/last name and hashed password. -/
def updateOne (hash : String → String) (db : List UserDoc) (email : String)
    (body : EditBody) : List UserDoc :=
  match db with
  | [] => []
  | u :: rest =>
    if u.email = email then
      { u with firstName := body.firstName, lastName := body.lastName,
               password := hash body.password } :: rest
    else u :: updateOne hash rest email body

/-- `exports.updateAUser`: validate (shape enforced by `EditBody`), hash the
new password, `updateOne`; 404 (`none`) when no document matched; otherwise
re-fetch the updated document, strip its password and respond with the
updated database and the response object. -/
def updateAUser (hash : String → String) (db : List UserDoc) (email : String)
    (body : EditBody) : Option (List UserDoc × UserView) :=
  if (findOne db email).isSome then
    let db2 := updateOne hash db email body
    match findOne db2 email with
    | some u => some (db2, deletePassword (toObject u))
    | none => none
  else none

/-- Request body of `exports.create` (userRegister schema fields), extended
with an attacker-supplied `isAdminField` that the controller never reads. -/
structure RegisterBody where
  firstName : String
  lastName : String
  email : String
  password : String
  isAdminField : Option Bool
deriving DecidableEq, Repr

/-- The `new Users({...})` document constructed by `exports.create`: every
field is copied from the request except `password` (bcrypt hash of the
request password) and `isAdmin`, which is the literal `false`. -/
def create (hash : String → String) (b : RegisterBody) : UserDoc :=
  { firstName := b.firstName
    lastName := b.lastName
    email := b.email
    password := hash b.password
    isAdmin := false }

/-- A concrete two-user database. -/
def sampleDb : List UserDoc :=
  [⟨"Ada", "Lovelace", "ada@example.com", "hash1", false⟩,
   ⟨"Bob", "Builder", "bob@example.com", "hash2", true⟩]

/-- A concrete edit request body. -/
def sampleEdit : EditBody :=
  ⟨"Ada", "Byron", "newpassword"⟩

/-- A registration request that tries to smuggle in `isAdmin: true`. -/
def regBodyAdmin : RegisterBody :=
  ⟨"Eve", "Mallory", "eve@example.com", "pw", some true⟩

/-- The same registration request without the `isAdmin` field. -/
def regBodyPlain : RegisterBody :=
  ⟨"Eve", "Mallory", "eve@example.com", "pw", none⟩

end Users

/-! ## Helper lemmas -/

namespace Deploy

lemma mem_insertRes {a : Resource} {c : List Resource} (r : Resource)
    (h : a ∈ c) : a ∈ insertRes c r := by
  unfold insertRes
  split
  · exact h
  · exact List.mem_append_left _ h

lemma self_mem_insertRes (c : List Resource) (r : Resource) :
    r ∈ insertRes c r := by
  unfold insertRes
  split
  · assumption
  · simp

lemma insertRes_eq_of_mem {c : List Resource} {r : Resource} (h : r ∈ c) :
    insertRes c r = c := by
  simp [insertRes, h]

lemma mem_clusterStep (env : Env) {a : Resource} {c : List Resource}
    (e : Event) (h : a ∈ c) : a ∈ clusterStep env c e := by
  cases e with
  | apply r =>
    simp only [clusterStep]
    split
    · exact mem_insertRes r h
    · exact h
  | waitMongo => exact h

lemma mem_foldl_clusterStep (env : Env) {a : Resource} (l : List Event)
    {c : List Resource} (h : a ∈ c) :
    a ∈ l.foldl (clusterStep env) c := by
  induction l generalizing c with
  | nil => simpa using h
  | cons e t ih => exact ih (mem_clusterStep env e h)

lemma apply_mem_foldl_clusterStep (env : Env) {r : Resource} (l : List Event)
    (c : List Resource) (hl : Event.apply r ∈ l) (hr : env.applyExit r = 0) :
    r ∈ l.foldl (clusterStep env) c := by
  induction l generalizing c with
  | nil => simp at hl
  | cons e t ih =>
    rcases List.mem_cons.mp hl with he | ht
    · subst he
      apply mem_foldl_clusterStep env t
      simp only [clusterStep, hr, if_pos]
      exact self_mem_insertRes c r
    · exact ih _ ht

lemma foldl_clusterStep_noop (env : Env) (l : List Event)
    (c : List Resource)
    (h : ∀ r : Resource, Event.apply r ∈ l → env.applyExit r = 0 → r ∈ c) :
    l.foldl (clusterStep env) c = c := by
  induction l with
  | nil => rfl
  | cons e t ih =>
    have hstep : clusterStep env c e = c := by
      cases e with
      | apply r =>
        simp only [clusterStep]
        split
        · exact insertRes_eq_of_mem (h r (List.mem_cons_self _ _) (by assumption))
        · rfl
      | waitMongo => rfl
    rw [List.foldl_cons, hstep]
    exact ih (fun r hm => h r (List.mem_cons_of_mem _ hm))

lemma runCluster_idempotent (env : Env) (c : List Resource) :
    runCluster env (runCluster env c) = runCluster env c := by
  unfold runCluster
  exact foldl_clusterStep_noop env _ _
    (fun r hl hr => apply_mem_foldl_clusterStep env _ c hl hr)

end Deploy

/-! ## Claims -/

open Deploy Build Verify Users

/-- C1: for every run of the deploy script that reaches Complete, the
resources were submitted exactly in the fixed dependency order — namespace,
secret, configmap, the stateful MongoDB unit, then (after the readiness
wait) the stateless backend and frontend units, and the ingress routing
rule last; no resource is submitted out of this order. -/
theorem deploy_complete_applies_in_order (env : Deploy.Env)
    (h : (deploy env).state = .complete) :
    (deploy env).trace = fullTrace := by
  unfold deploy at h ⊢
  cases hk : env.kubectlPresent with
  | false => simp [hk] at h
  | true =>
    simp only [hk] at h ⊢
    rw [if_neg (by decide)] at h ⊢
    by_cases h1 : env.applyExit .ns = 0
    · rw [if_neg (not_not_intro h1)] at h ⊢
      by_cases h2 : env.applyExit .secret = 0
      · rw [if_neg (not_not_intro h2)] at h ⊢
        by_cases h3 : env.applyExit .config = 0
        · rw [if_neg (not_not_intro h3)] at h ⊢
          by_cases h4 : env.applyExit .mongodb = 0
          · rw [if_neg (not_not_intro h4)] at h ⊢
            by_cases h5 : env.applyExit .backend = 0
            · rw [if_neg (not_not_intro h5)] at h ⊢
              by_cases h6 : env.applyExit .frontend = 0
              · rw [if_neg (not_not_intro h6)]
                rfl
              · rw [if_pos h6] at h; simp at h
            · rw [if_pos h5] at h; simp at h
          · rw [if_pos h4] at h; simp at h
        · rw [if_pos h3] at h; simp at h
      · rw [if_pos h2] at h; simp at h
    · rw [if_pos h1] at h; simp at h

/-- Witness for C1: in the all-success environment the run completes and
the trace is the fixed order. -/
theorem deploy_complete_applies_in_order_witness :
    (deploy allOkEnv).state = .complete ∧
    (deploy allOkEnv).trace = fullTrace :=
  ⟨rfl, deploy_complete_applies_in_order allOkEnv rfl⟩

/-- C2: if MongoDB never reports ready, the 120s wait fails, the failure is
swallowed (`|| true`), the run proceeds to the stateless backend/frontend
applies, and (the cluster accepting every apply) the run ends Complete with
exactly the one readiness warning; the full fixed trace is executed. -/
theorem deploy_timeout_proceeds (env : Deploy.Env)
    (hk : env.kubectlPresent = true)
    (ha : ∀ r : Resource, env.applyExit r = 0)
    (hm : env.mongoReadyWithin120 = false) :
    (deploy env).state = .complete ∧
    (deploy env).warnings = [.readiness] ∧
    (deploy env).trace = fullTrace := by
  unfold deploy
  simp [hk, hm, ha, fullTrace]

/-- Witness for C2: the environment in which MongoDB never becomes ready. -/
theorem deploy_timeout_proceeds_witness :
    (deploy mongoNeverReadyEnv).state = .complete ∧
    (deploy mongoNeverReadyEnv).warnings = [.readiness] ∧
    (deploy mongoNeverReadyEnv).trace = fullTrace :=
  deploy_timeout_proceeds mongoNeverReadyEnv rfl (fun _ => rfl) rfl

/-- C3: a rejected apply of a required manifest is fatal under `set -e`: if
the configmap apply fails (namespace and secret having succeeded), the run
ends Aborted with the apply's exit status, the stateful MongoDB manifest is
never attempted and no stateless-tier apply occurs; the same holds for a
namespace, secret, or MongoDB (stateful-tier) apply failure — in every case
the trace stops at the failing apply. -/
theorem deploy_requiredApplyFailure_aborts (env : Deploy.Env)
    (hk : env.kubectlPresent = true) :
    (env.applyExit .ns ≠ 0 →
      deploy env = ⟨[.apply .ns], .aborted, [], env.applyExit .ns⟩) ∧
    (env.applyExit .ns = 0 → env.applyExit .secret ≠ 0 →
      deploy env = ⟨[.apply .ns, .apply .secret], .aborted, [],
        env.applyExit .secret⟩) ∧
    (env.applyExit .ns = 0 → env.applyExit .secret = 0 →
      env.applyExit .config ≠ 0 →
      deploy env = ⟨[.apply .ns, .apply .secret, .apply .config], .aborted, [],
        env.applyExit .config⟩) ∧
    (env.applyExit .ns = 0 → env.applyExit .secret = 0 →
      env.applyExit .config = 0 → env.applyExit .mongodb ≠ 0 →
      deploy env = ⟨[.apply .ns, .apply .secret, .apply .config,
        .apply .mongodb], .aborted, [], env.applyExit .mongodb⟩) := by
  refine ⟨fun h1 => ?_, fun h1 h2 => ?_, fun h1 h2 h3 => ?_,
    fun h1 h2 h3 h4 => ?_⟩ <;>
  · unfold deploy
    simp [hk, *]

/-- Witness for C3: the environment whose cluster rejects the configmap. -/
theorem deploy_requiredApplyFailure_aborts_witness :
    deploy configRejectEnv =
      ⟨[.apply .ns, .apply .secret, .apply .config], .aborted, [], 1⟩ :=
  (deploy_requiredApplyFailure_aborts configRejectEnv rfl).2.2.1 rfl rfl
    (by decide)

/-- C4: a rejected ingress apply is downgraded to a warning by the
`|| echo` guard: the run still ends Complete with exactly the one routing
warning, every other step is executed (full fixed trace), and the script
exits 0. -/
theorem deploy_routingFailure_tolerated (env : Deploy.Env)
    (hk : env.kubectlPresent = true)
    (ha : ∀ r : Resource, r ≠ .ingress → env.applyExit r = 0)
    (hm : env.mongoReadyWithin120 = true)
    (hi : env.applyExit .ingress ≠ 0) :
    (deploy env).state = .complete ∧
    (deploy env).warnings = [.routing] ∧
    (deploy env).exitCode = 0 ∧
    (deploy env).trace = fullTrace := by
  have hns := ha .ns (by decide)
  have hsec := ha .secret (by decide)
  have hcfg := ha .config (by decide)
  have hmg := ha .mongodb (by decide)
  have hbe := ha .backend (by decide)
  have hfe := ha .frontend (by decide)
  unfold deploy
  simp [hk, hm, hi, hns, hsec, hcfg, hmg, hbe, hfe, fullTrace]

/-- Witness for C4: the environment whose cluster rejects only the
ingress apply. -/
theorem deploy_routingFailure_tolerated_witness :
    (deploy ingressRejectEnv).state = .complete ∧
    (deploy ingressRejectEnv).warnings = [.routing] ∧
    (deploy ingressRejectEnv).exitCode = 0 ∧
    (deploy ingressRejectEnv).trace = fullTrace :=
  deploy_routingFailure_tolerated ingressRejectEnv rfl
    (fun _ hr => if_neg hr) rfl (by decide)

/-- C5: with no `kubectl` on PATH the script exits 1 at the tooling
precheck, before any manifest is submitted: the run is Aborted with exit
code 1 and the set of submitted resources is empty. -/
theorem deploy_missingTooling_aborts (env : Deploy.Env)
    (hk : env.kubectlPresent = false) :
    deploy env = ⟨[], .aborted, [], 1⟩ ∧ submitted env = [] := by
  have h : deploy env = ⟨[], .aborted, [], 1⟩ := by
    unfold deploy
    simp [hk]
  exact ⟨h, by simp [submitted, h]⟩

/-- Witness for C5: the environment with no `kubectl`. -/
theorem deploy_missingTooling_aborts_witness :
    deploy noKubectlEnv = ⟨[], .aborted, [], 1⟩ ∧ submitted noKubectlEnv = [] :=
  deploy_missingTooling_aborts noKubectlEnv rfl

/-- C7: the deploy script holds no state across runs — a second invocation
against the same environment is the same pure function, so if the first run
Completes, the second run also Completes with an identical event trace, and
a cluster that treats re-apply as a no-op update is left unchanged by the
second run. -/
theorem deploy_idempotent_reruns (env : Deploy.Env) (c : List Resource)
    (h : (deploy env).state = .complete) :
    (deployTwice env c).1.1.state = .complete ∧
    (deployTwice env c).1.2.state = .complete ∧
    (deployTwice env c).1.1.trace = (deployTwice env c).1.2.trace ∧
    (deployTwice env c).2 = runCluster env c :=
  ⟨h, h, rfl, runCluster_idempotent env c⟩

/-- Witness for C7: two runs in the all-success environment starting from
an empty cluster. -/
theorem deploy_idempotent_reruns_witness :
    (deployTwice allOkEnv []).1.1.state = .complete ∧
    (deployTwice allOkEnv []).1.2.state = .complete ∧
    (deployTwice allOkEnv []).1.1.trace = (deployTwice allOkEnv []).1.2.trace ∧
    (deployTwice allOkEnv []).2 = runCluster allOkEnv [] :=
  deploy_idempotent_reruns allOkEnv [] rfl

/-- C6: a `docker build` failure is fatal to the build script under
`set -e`: the script exits with the failing build's (non-zero) status, the
failing service unit is the last one announced, no subsequent image build is
attempted, and the script never invokes the deployment script — for both
the backend (first) and frontend (second) builds. -/
theorem buildFailure_fatal (env : Build.BuildEnv) :
    (env.buildExit .backend ≠ 0 →
      buildImages env = ⟨[.backend], [], env.buildExit .backend, false⟩ ∧
      (buildImages env).exitCode ≠ 0 ∧
      (buildImages env).announced.getLast? = some .backend) ∧
    (env.buildExit .backend = 0 → env.buildExit .frontend ≠ 0 →
      buildImages env = ⟨[.backend, .frontend], [.backend],
        env.buildExit .frontend, false⟩ ∧
      (buildImages env).exitCode ≠ 0 ∧
      (buildImages env).announced.getLast? = some .frontend) := by
  constructor
  · intro h1
    have hb : buildImages env =
        ⟨[.backend], [], env.buildExit .backend, false⟩ := by
      unfold buildImages
      simp [h1]
    refine ⟨hb, ?_, ?_⟩ <;> rw [hb]
    · exact h1
    · rfl
  · intro h1 h2
    have hb : buildImages env = ⟨[.backend, .frontend], [.backend],
        env.buildExit .frontend, false⟩ := by
      unfold buildImages
      simp [h1, h2]
    refine ⟨hb, ?_, ?_⟩ <;> rw [hb]
    · exact h2
    · rfl

/-- Witness for C6: the environment in which the backend build fails with
status 7. -/
theorem buildFailure_fatal_witness :
    buildImages backendFailEnv = ⟨[.backend], [], 7, false⟩ ∧
    (buildImages backendFailEnv).exitCode ≠ 0 ∧
    (buildImages backendFailEnv).announced.getLast? = some .backend :=
  (buildFailure_fatal backendFailEnv).1 (by decide)

/-- C8 counterexample: an environment in which required tooling is absent —
the docker daemon is not running and kubectl is not installed — yet the
verification script exits 0, refuting the claim that it exits non-zero in
every environment missing a required tool or daemon. -/
theorem verify_exit_counterexample :
    daemonDownEnv.daemonRunning = false ∧
    daemonDownEnv.kubectlInstalled = false ∧
    (verify daemonDownEnv).exitCode = 0 :=
  ⟨rfl, rfl, rfl⟩

/-- C8 (amended): the verification script prints a pass/warn/fail line per
check and exits non-zero exactly when the docker CLI itself is absent (the
only tooling check followed by `exit 1`); a stopped docker daemon or a
missing kubectl is reported as a failed check line, but the script
continues and still exits 0. -/
theorem verify_exit_iff (e : Verify.VerifyEnv)
    (hd : e.projectDirAccessible = true) :
    ((verify e).exitCode = 0 ↔ e.dockerInstalled = true) ∧
    (e.dockerInstalled = true → e.daemonRunning = false →
      ("docker daemon", CheckStatus.fail) ∈ (verify e).lines ∧
      (verify e).exitCode = 0) ∧
    (e.dockerInstalled = true → e.kubectlInstalled = false →
      ("kubectl installed", CheckStatus.fail) ∈ (verify e).lines ∧
      (verify e).exitCode = 0) := by
  refine ⟨?_, fun h1 h2 => ⟨?_, ?_⟩, fun h1 h2 => ⟨?_, ?_⟩⟩
  · cases hdc : e.dockerInstalled with
    | false => simp [verify, hdc]
    | true => simp [verify, hdc, hd]
  · simp [verify, passFail, passWarn, h1, h2, hd]
  · simp [verify, h1, hd]
  · simp [verify, passFail, passWarn, h1, h2, hd]
  · simp [verify, h1, hd]

/-- Witness for C8 (amended): the daemon-down environment satisfies the
directory hypothesis and exhibits exit 0 with docker installed. -/
theorem verify_exit_iff_witness :
    daemonDownEnv.projectDirAccessible = true ∧
    ((verify daemonDownEnv).exitCode = 0 ↔
      daemonDownEnv.dockerInstalled = true) :=
  ⟨rfl, (verify_exit_iff daemonDownEnv rfl).1⟩

/-- C9: every successful response of the user read and update operations
strips the password: every user object returned by getAllUsers, a hit of
getAUser, and the response object of a successful updateAUser has its
password field removed (`delete userObj.password`), so no password hash is
included in a returned user record. -/
theorem userResponses_omit_password
    (hash : String → String) (db : List Users.UserDoc) (email : String)
    (body : Users.EditBody) :
    (∀ v ∈ getAllUsers db, v.password = none) ∧
    (∀ v, getAUser db email = some v → v.password = none) ∧
    (∀ db2 v, updateAUser hash db email body = some (db2, v) →
      v.password = none) := by
  refine ⟨?_, ?_, ?_⟩
  · intro v hv
    simp only [getAllUsers, List.mem_map] at hv
    obtain ⟨u, _, rfl⟩ := hv
    rfl
  · intro v hv
    simp only [getAUser, Option.map_eq_some'] at hv
    obtain ⟨u, _, rfl⟩ := hv
    rfl
  · intro db2 v hv
    simp only [updateAUser] at hv
    by_cases hf : (findOne db email).isSome
    · rw [if_pos hf] at hv
      cases hfind : findOne (updateOne hash db email body) email with
      | none => rw [hfind] at hv; exact absurd hv (by simp)
      | some u =>
        rw [hfind] at hv
        simp only [Option.some.injEq, Prod.mk.injEq] at hv
        obtain ⟨-, rfl⟩ := hv
        rfl
    · rw [if_neg hf] at hv
      exact absurd hv (by simp)

/-- Witness for C9: a concrete lookup in the sample database returns the
user with the password removed. -/
theorem userResponses_omit_password_witness :
    Users.getAUser sampleDb "ada@example.com" =
      some ⟨"Ada", "Lovelace", "ada@example.com", none, false⟩ ∧
    (⟨"Ada", "Lovelace", "ada@example.com", none, false⟩ :
      Users.UserView).password = none :=
  ⟨rfl, (userResponses_omit_password id sampleDb "ada@example.com"
    sampleEdit).2.1 _ rfl⟩

/-- C10: the user document stored by the create operation has isAdmin false
regardless of the request body: for any two registration requests agreeing
on the schema fields but differing arbitrarily in an attacker-supplied
isAdmin field, the constructed documents are identical and their isAdmin is
false — the request cannot grant admin privileges. -/
theorem create_ignores_isAdmin (hash : String → String)
    (b1 b2 : Users.RegisterBody)
    (hf : b1.firstName = b2.firstName) (hl : b1.lastName = b2.lastName)
    (he : b1.email = b2.email) (hp : b1.password = b2.password) :
    (create hash b1).isAdmin = false ∧ create hash b1 = create hash b2 := by
  refine ⟨rfl, ?_⟩
  simp [Users.create, hf, hl, he, hp]

/-- Witness for C10: a request claiming `isAdmin: true` produces the same
stored document as the same request without it, with isAdmin false. -/
theorem create_ignores_isAdmin_witness :
    (create id regBodyAdmin).isAdmin = false ∧
    create id regBodyAdmin = create id regBodyPlain :=
  create_ignores_isAdmin id regBodyAdmin regBodyPlain rfl rfl rfl rfl
